import Mathlib

/-!
Shallow embedding of the freshness-checked cache layer of the
soccer-analyst dashboard (src/app.py, src/vector_db.py,
src/football_data_api.py).

Modelling conventions:
* Time is a rational number of seconds; a stored ISO timestamp is modelled
  as the already-parsed instant (`datetime.fromisoformat` succeeding).
* A Python payload (standings dict, match dict, analysis object, ...) is
  modelled by the opaque `Payload` record, carrying only the fields the
  cache layer inspects: whether the dict contains the `standings` key, and
  the standings table rows used by the team lookup.
* Each fetch operation is modelled twice: a TEXTUAL model, in which the
  store probe yields the parsed envelope the code attempts to consume and
  the remote adapters return values (the spec's adapter-contract view),
  and an as-executed model (the `_exec` functions), in which the probe's
  integer subscript of the query-result dict always raises a caught
  `KeyError` — making the hit path dead code — and uncaught adapter
  exceptions propagate to the caller.
* Exceptions are modelled with `Except` / the `raised` constructor of
  `FetchResult`; a caught-and-logged exception is a normal value.
-/

namespace SoccerAnalyst

/-- A row of `standings['standings'][0]['table']`: the cache layer only
reads `team['team']['name']` and `team['team']['id']`. -/
structure Team where
  name : String
  tid : Nat
deriving DecidableEq, Repr

/-- An opaque domain payload. `pid` distinguishes payloads; `hasStandingsKey`
models the Python check `'standings' in payload`; `table` models
`payload['standings'][0]['table']` (meaningful when `hasStandingsKey`). -/
structure Payload where
  pid : Nat
  hasStandingsKey : Bool
  table : List Team
deriving DecidableEq, Repr

/-- One row of `CACHE_CONFIG` in src/app.py: per-category ttl (seconds)
and expected version string. -/
structure CacheConfigEntry where
  ttl : ℚ
  version : String
deriving DecidableEq, Repr

/-- src/app.py `CACHE_CONFIG`: the four fixed categories, each with a
300-second ttl and version "1.0". Looking up any other key is a Python
`KeyError`, modelled as `none`. -/
def CACHE_CONFIG (data_type : String) : Option CacheConfigEntry :=
  if data_type = "standings" then some ⟨300, "1.0"⟩
  else if data_type = "matches" then some ⟨300, "1.0"⟩
  else if data_type = "analysis" then some ⟨300, "1.0"⟩
  else if data_type = "team_data" then some ⟨300, "1.0"⟩
  else none

/-- The four category names accepted by `CACHE_CONFIG`. -/
def cacheCategories : List String := ["standings", "matches", "analysis", "team_data"]

/-- src/app.py `CacheMonitor`: three mutable counters. -/
structure CacheMonitor where
  hits : Nat
  misses : Nat
  api_calls : Nat
deriving DecidableEq, Repr

def CacheMonitor.record_hit (m : CacheMonitor) : CacheMonitor :=
  { m with hits := m.hits + 1 }

def CacheMonitor.record_miss (m : CacheMonitor) : CacheMonitor :=
  { m with misses := m.misses + 1 }

def CacheMonitor.record_api_call (m : CacheMonitor) : CacheMonitor :=
  { m with api_calls := m.api_calls + 1 }

/-- Render a non-negative rational percentage with one decimal digit,
modelling Python's `f"{x:.1f}%"` (rounding to the nearest tenth; the
binary-float tie-breaking of CPython is idealised as round-half-up,
which agrees on every value the claims exercise, in particular on 0). -/
def format_pct (q : ℚ) : String :=
  let n : Int := Int.floor (q * 10 + 1/2)
  toString (n / 10) ++ "." ++ toString (n % 10) ++ "%"

/-- The dictionary returned by `CacheMonitor.get_stats`. -/
structure CacheStats where
  hits : Nat
  misses : Nat
  api_calls : Nat
  hit_rate : ℚ
  hit_rate_str : String
deriving DecidableEq, Repr

/-- src/app.py `CacheMonitor.get_stats`: guarded percentage computation,
`hit_rate = hits / total * 100 if total > 0 else 0`. -/
def CacheMonitor.get_stats (m : CacheMonitor) : CacheStats :=
  let total : Nat := m.hits + m.misses
  let hit_rate : ℚ := if total > 0 then (m.hits : ℚ) / (total : ℚ) * 100 else 0
  { hits := m.hits, misses := m.misses, api_calls := m.api_calls,
    hit_rate := hit_rate, hit_rate_str := format_pct hit_rate }

/-- Python exceptions the embedded code can raise. -/
inductive PyError where
  | keyError (k : String)
  | valueError (msg : String)
  | storeError
  | kafkaError
deriving DecidableEq, Repr

/-- The parsed JSON envelope dictionary consulted by `is_data_valid` and
the hit paths: each field is `none` when the corresponding key is absent
from the dict (the empty dict `\x7b\x7d` is the all-`none` record). -/
structure StoredDict (α : Type) where
  ddata : Option α
  version : Option String
  timestamp : Option ℚ
deriving DecidableEq, Repr

/-- src/app.py `is_data_valid(data, data_type)`: returns `False` when the
dict is falsy or lacks `timestamp`/`version`; otherwise looks up
`CACHE_CONFIG[data_type]` (a `KeyError` for an unknown category) and
returns `(now - timestamp).total_seconds() < ttl and version == expected`. -/
def is_data_valid {α : Type} (d : StoredDict α) (data_type : String) (now : ℚ) :
    Except PyError Bool :=
  match d.timestamp, d.version with
  | some ts, some v =>
    match CACHE_CONFIG data_type with
    | some cfg => .ok (decide (now - ts < cfg.ttl) && decide (v = cfg.version))
    | none => .error (.keyError data_type)
  | _, _ => .ok false

deriving instance DecidableEq for Except

/-- Outcome of one `fetch_and_store_*` call as seen by the caller:
a returned payload, Python `None`, or an uncaught exception. -/
inductive FetchResult (α : Type) where
  | ok (a : α)
  | nil
  | raised (e : PyError)
deriving DecidableEq, Repr

/-- Observable effects of one `fetch_and_store_*` call: the caller-visible
result, the cache monitor afterwards, the number of remote-source
invocations performed, and the number of `add_documents` attempts. -/
structure FetchOut (α : Type) where
  result : FetchResult α
  monitor : CacheMonitor
  remoteCalls : Nat
  storeWrites : Nat
deriving DecidableEq, Repr

/-- External world for one `fetch_and_store_standings` call, in the
TEXTUAL model of app.py:126-192: `db_result` is the envelope the probe
block attempts to consume (`none` when there is no usable result,
`some (.error ())` when the parse raises, `some (.ok d)` when it yields
the dict `d`), and the remote step is taken in the adapter-contract view
of the spec (it returns `api_result`, `none` = falsy, rather than
raising). In the program as executed the `some (.ok d)` case never
materialises and the remote step can raise — see `StandingsExecEnv` and
`fetch_and_store_standings_exec` below for the as-executed model.
`store_raises` / `kafka_raises` say whether the envelope `add_documents`
write / `publish_standings_update` raise. -/
structure StandingsEnv where
  now : ℚ
  db_result : Option (Except Unit (StoredDict Payload))
  api_result : Option Payload
  store_raises : Bool
  kafka_raises : Bool
deriving DecidableEq, Repr

/-- The miss path of `fetch_and_store_standings` (from `record_miss()`
onwards): record miss + api call, fetch (`collect_and_process_data` then
`get_standings`, two remote invocations), and — inside one `try` — store,
publish and return the payload; the `except` logs and control falls
through to `return None`. -/
def standings_miss_path (env : StandingsEnv) (m : CacheMonitor) :
    FetchOut Payload :=
  let m := (m.record_miss).record_api_call
  match env.api_result with
  | some s =>
    if s.hasStandingsKey then
      if env.store_raises then ⟨.nil, m, 2, 1⟩
      else if env.kafka_raises then ⟨.nil, m, 2, 1⟩
      else ⟨.ok s, m, 2, 1⟩
    else ⟨.nil, m, 2, 0⟩
  | none => ⟨.nil, m, 2, 0⟩

/-- src/app.py `fetch_and_store_standings`: probe the store, validate the
envelope, return the hit (note `record_hit()` happens before the
`data['data']` access, whose `KeyError` is caught by the surrounding
`except` and falls through to the miss path); otherwise take the miss
path. -/
def fetch_and_store_standings (env : StandingsEnv) (m : CacheMonitor) :
    FetchOut Payload :=
  match env.db_result with
  | some (.ok d) =>
    match is_data_valid d "standings" env.now with
    | .ok true =>
      let m := m.record_hit
      match d.ddata with
      | some p => ⟨.ok p, m, 0, 0⟩
      | none => standings_miss_path env m
    | _ => standings_miss_path env m
  | some (.error _) => standings_miss_path env m
  | none => standings_miss_path env m

/-- External world for one `fetch_and_store_matches` call, in the textual
model (same conventions as `StandingsEnv`; as executed, the probe's
`some (.ok d)` case never materialises — see
`fetch_and_store_matches_exec`); the remote source is
`get_valid_match_ids` (one invocation, catching its own transport
errors), there is no Kafka publish on this path. -/
structure MatchesEnv where
  now : ℚ
  db_result : Option (Except Unit (StoredDict Payload))
  api_result : Option Payload
  store_raises : Bool
deriving DecidableEq, Repr

/-- The miss path of `fetch_and_store_matches`, parameterised by the
`get_valid_match_ids` result and whether the envelope write-back raises:
record miss + api call, call the adapter, and store-and-return inside one
`try` whose `except` falls through to `return None`. The adapter catches
its own transport errors (football_data_api.py:180-212) and returns the
accumulated dict, so it is modelled as returning a value. -/
def matches_miss_path_from (api_result : Option Payload) (sr : Bool)
    (m : CacheMonitor) : FetchOut Payload :=
  let m := (m.record_miss).record_api_call
  match api_result with
  | some s =>
    if sr then ⟨.nil, m, 1, 1⟩
    else ⟨.ok s, m, 1, 1⟩
  | none => ⟨.nil, m, 1, 0⟩

/-- The miss path of `fetch_and_store_matches` read off a `MatchesEnv`. -/
def matches_miss_path (env : MatchesEnv) (m : CacheMonitor) :
    FetchOut Payload :=
  matches_miss_path_from env.api_result env.store_raises m

/-- src/app.py `fetch_and_store_matches`: same shape as the standings
operation, with category `matches`, truthiness test `if matches:` on the
remote result, and no Kafka publish. -/
def fetch_and_store_matches (env : MatchesEnv) (m : CacheMonitor) :
    FetchOut Payload :=
  match env.db_result with
  | some (.ok d) =>
    match is_data_valid d "matches" env.now with
    | .ok true =>
      let m := m.record_hit
      match d.ddata with
      | some p => ⟨.ok p, m, 0, 0⟩
      | none => matches_miss_path env m
    | _ => matches_miss_path env m
  | some (.error _) => matches_miss_path env m
  | none => matches_miss_path env m

/-- External world for one `fetch_and_store_match_analysis` call, in the
textual model. `db_result` is `json.loads` of the `analysis_data`
metadata field (the stored analysis is a raw payload, not an envelope);
`api_result` is `analyze_match(match_id)` in the adapter-contract view.
As executed, the cached-return case never materialises and
`analyze_match` can raise — see `fetch_and_store_match_analysis_exec`. -/
structure AnalysisEnv where
  db_result : Option (Except Unit Payload)
  api_result : Option Payload
  store_raises : Bool
deriving DecidableEq, Repr

/-- src/app.py `fetch_and_store_match_analysis`: a parsed cached analysis
is returned immediately with no validity check and no monitor update;
otherwise the analysis is recomputed and stored inside a `try` whose
`except` logs and falls through to `return None`. The cache monitor is
never consulted by this operation. -/
def fetch_and_store_match_analysis (env : AnalysisEnv) (m : CacheMonitor) :
    FetchOut Payload :=
  match env.db_result with
  | some (.ok a) => ⟨.ok a, m, 0, 0⟩
  | _ =>
    match env.api_result with
    | some a =>
      if env.store_raises then ⟨.nil, m, 1, 1⟩
      else ⟨.ok a, m, 1, 1⟩
    | none => ⟨.nil, m, 1, 0⟩

/-- src/app.py `get_full_team_name`: the literal 20-entry mapping. -/
def team_mapping : List (String × String) :=
  [("Liverpool", "Liverpool FC"),
   ("Manchester United", "Manchester United FC"),
   ("Manchester City", "Manchester City FC"),
   ("Chelsea", "Chelsea FC"),
   ("Arsenal", "Arsenal FC"),
   ("Tottenham", "Tottenham Hotspur FC"),
   ("Newcastle", "Newcastle United FC"),
   ("West Ham", "West Ham United FC"),
   ("Brighton", "Brighton & Hove Albion FC"),
   ("Aston Villa", "Aston Villa FC"),
   ("Wolves", "Wolverhampton Wanderers FC"),
   ("Bournemouth", "AFC Bournemouth"),
   ("Crystal Palace", "Crystal Palace FC"),
   ("Brentford", "Brentford FC"),
   ("Everton", "Everton FC"),
   ("Fulham", "Fulham FC"),
   ("Southampton", "Southampton FC"),
   ("Leicester", "Leicester City FC"),
   ("Nottingham", "Nottingham Forest FC"),
   ("Ipswich", "Ipswich Town FC")]

def get_full_team_name (team_name : String) : String :=
  (team_mapping.lookup team_name).getD team_name

/-- `startsWithL pat s`: `pat` is an initial segment of `s`. -/
def startsWithL : List Char → List Char → Bool
  | [], _ => true
  | _ :: _, [] => false
  | p :: ps, c :: cs => (p = c) && startsWithL ps cs

/-- `containsL pat s`: `pat` occurs contiguously in `s` (Python `pat in s`). -/
def containsL (pat : List Char) : List Char → Bool
  | [] => startsWithL pat []
  | c :: cs => startsWithL pat (c :: cs) || containsL pat cs

/-- Python `a in b` on strings. -/
def strIn (pat s : String) : Bool := containsL pat.toList s.toList

/-- First table row whose team name equals `full_team_name` (the exact-match
loop with `break`). -/
def findExact (full_team_name : String) : List Team → Option Team
  | [] => none
  | t :: ts =>
    if t.name = full_team_name then some t else findExact full_team_name ts

/-- First table row related to `full_team_name` by substring containment in
either direction (the partial-match loop with `break`). -/
def findPartial (full_team_name : String) : List Team → Option Team
  | [] => none
  | t :: ts =>
    if strIn full_team_name t.name || strIn t.name full_team_name then some t
    else findPartial full_team_name ts

/-- External world for one `fetch_and_store_team_data` call, in the
textual model. `db_result` is `json.loads` of the `team_data` metadata
field (a raw table row, no envelope); `senv` is the world seen by the
nested `fetch_and_store_standings` call on the miss path. As executed,
the cached-return case never materialises — see
`fetch_and_store_team_data_exec`. -/
structure TeamEnv where
  team_name : String
  db_result : Option (Except Unit Team)
  senv : StandingsEnv
  store_raises : Bool
  kafka_raises : Bool
deriving DecidableEq, Repr

/-- The miss path of `fetch_and_store_team_data`, parameterised by the
team name, the store/publish failure flags, and the outcome `sout` of the
nested standings call: look the team up in the standings table (exact
match first, then substring match), then — with NO enclosing `try` — call
`add_documents` and `publish_team_stats` before returning the row, so a
store or publish exception propagates; an exception from the nested
standings call also propagates. -/
def team_data_miss_path_from (team_name : String) (sr kr : Bool)
    (sout : FetchOut Payload) : FetchOut Team :=
  let full := get_full_team_name team_name
  match sout.result with
  | .ok s =>
    if s.hasStandingsKey then
      match (findExact full s.table).orElse (fun _ => findPartial full s.table) with
      | some t =>
        if sr then
          ⟨.raised .storeError, sout.monitor, sout.remoteCalls, sout.storeWrites + 1⟩
        else if kr then
          ⟨.raised .kafkaError, sout.monitor, sout.remoteCalls, sout.storeWrites + 1⟩
        else ⟨.ok t, sout.monitor, sout.remoteCalls, sout.storeWrites + 1⟩
      | none => ⟨.nil, sout.monitor, sout.remoteCalls, sout.storeWrites⟩
    else ⟨.nil, sout.monitor, sout.remoteCalls, sout.storeWrites⟩
  | .nil => ⟨.nil, sout.monitor, sout.remoteCalls, sout.storeWrites⟩
  | .raised e => ⟨.raised e, sout.monitor, sout.remoteCalls, sout.storeWrites⟩

/-- The team-data miss path read off a `TeamEnv`. -/
def team_data_miss_path (env : TeamEnv) (sout : FetchOut Payload) :
    FetchOut Team :=
  team_data_miss_path_from env.team_name env.store_raises env.kafka_raises sout

/-- src/app.py `fetch_and_store_team_data`: a parsed cached row is
returned with no validity check and no monitor update (`except: pass` on
parse failure); otherwise the standings are obtained through
`fetch_and_store_standings` and the miss path runs. -/
def fetch_and_store_team_data (env : TeamEnv) (m : CacheMonitor) :
    FetchOut Team :=
  match env.db_result with
  | some (.ok t) => ⟨.ok t, m, 0, 0⟩
  | _ => team_data_miss_path env (fetch_and_store_standings env.senv m)

/-- One HTTP response from the remote source: a status code and the parsed
body (for 200 responses). -/
structure HttpResponse where
  status : Nat
  body : String
deriving DecidableEq, Repr

/-- src/football_data_api.py `min_request_interval` (seconds). -/
def min_request_interval : Nat := 6

/-- Caller-visible outcome of `_make_request`. `exhausted` marks the model
artefact of the response stream ending while the adapter is still
retrying — the real code would still be recursing at that point. -/
inductive ReqResult where
  | ok (body : String)
  | failed (code : Nat)
  | exhausted
deriving DecidableEq, Repr

/-- src/football_data_api.py `FootballDataAPI._make_request`, driven by the
sequence of responses the server returns to successive attempts: a 200
yields the parsed body; a 429 sleeps `min_request_interval` seconds and
recursively retries the identical request with no retry ceiling; any other
status prints and returns `None`. The second component counts the
429-triggered sleeps performed. -/
def make_request : List HttpResponse → ReqResult × Nat
  | [] => (.exhausted, 0)
  | r :: rest =>
    if r.status = 200 then (.ok r.body, 0)
    else if r.status = 429 then
      let (res, sleeps) := make_request rest
      (res, sleeps + 1)
    else (.failed r.status, 0)

/-- src/vector_db.py: the five collections created in `__init__`. -/
def collection_names : List String :=
  ["manchester_united", "epl_teams", "match_reports", "tactical_analysis",
   "team_stats"]

/-- The raw result structure returned by the underlying store query; its
payload shapes are opaque here. -/
structure QueryResultSet where
  ids : List String
  distances : List String
  metadatas : List String
  documents : List String
deriving DecidableEq, Repr

/-- The empty result structure `query_collection` substitutes on error. -/
def emptyQueryResult : QueryResultSet := ⟨[], [], [], []⟩

/-- src/vector_db.py `SoccerAnalystVectorDB.query_collection`: raises
`ValueError` for a collection name outside the fixed five (before any
`try`); otherwise performs the underlying query (`underlying`, which may
itself raise, modelled by `Except`) and on any exception prints and
returns the empty result structure. -/
def query_collection
    (underlying : String → String → Nat → Except Unit QueryResultSet)
    (collection_name query_text : String) (n_results : Nat) :
    Except PyError QueryResultSet :=
  if collection_name ∈ collection_names then
    match underlying collection_name query_text n_results with
    | .ok r => .ok r
    | .error _ => .ok emptyQueryResult
  else
    .error (.valueError ("Collection " ++ collection_name ++ " does not exist"))

/-!
### The program as executed

The environments above model the store probe as the parsed envelope the
code ATTEMPTS to consume, and the remote step in the adapter-contract
view of the spec (the adapter returns a value rather than raising). The
definitions below model the same operations as the program actually
executes them:

* `query_collection` returns a dict (ChromaDB query result, or the
  error fallback above), and app.py subscripts it with the integer 0
  (`db_results[0]`, app.py:143/211/271/349). A dict lookup with an
  integer key against string keys raises `KeyError: 0`, which each fetch
  function catches before falling to the miss path — so the cached-hit
  return is unreachable and `record_hit` never runs.
* `collect_and_process_data` (called at app.py:155 with no enclosing
  `try`) performs its own remote requests and `add_documents` writes and
  can raise — e.g. a `TypeError` from `create_standings_dataframe(None)`
  when its internal `get_standings` fails, or one of its own uncaught
  store errors — and `get_standings` itself can raise from
  `requests.get` (no `try` in `_make_request`). Those exceptions
  propagate out of `fetch_and_store_standings`.
* `analyze_match` (app.py:279, no `try`) can likewise raise (transport
  errors, figure saving) and propagates out of
  `fetch_and_store_match_analysis`.
-/

/-- A Python dict key: a string or an integer. -/
inductive PyKey where
  | s (v : String)
  | i (v : Int)
deriving DecidableEq, Repr

/-- The text a `KeyError` reports for a key. -/
def pyKeyStr : PyKey → String
  | .s v => v
  | .i v => toString v

/-- The query-result dict as a key/value association: its keys are the
four strings (ChromaDB's real result carries further string keys such as
`embeddings`; no key is an integer, which is all the lookup below needs). -/
def queryResultDict (r : QueryResultSet) : List (PyKey × List String) :=
  [(.s "ids", r.ids), (.s "distances", r.distances),
   (.s "metadatas", r.metadatas), (.s "documents", r.documents)]

/-- Python `d[k]`: return the value stored under `k`, or raise `KeyError`. -/
def dictGetItem (d : List (PyKey × List String)) (k : PyKey) :
    Except PyError (List String) :=
  match d with
  | [] => .error (.keyError (pyKeyStr k))
  | (k', v) :: rest => if k' = k then .ok v else dictGetItem rest k

/-- Observable outcome of `collect_and_process_data` (soccer_analyst.py),
called at app.py:155 with NO enclosing `try`: `raises` is the exception it
lets escape (propagating to `fetch_and_store_standings`'s caller), if any;
`api_requests` counts the remote requests it performed; `db_writes` counts
its own `add_documents` writes (soccer_analyst.py:273/300). -/
structure CollectOutcome where
  raises : Option PyError
  api_requests : Nat
  db_writes : Nat
deriving DecidableEq, Repr

/-- External world for one `fetch_and_store_standings` call as executed:
the raw query-result dict, the `collect_and_process_data` outcome, the
`get_standings` outcome (which can itself raise, `.error`, since
`requests.get` in `_make_request` has no `try`) together with the number
of HTTP requests it made, and the envelope write-back / publish failure
flags. -/
structure StandingsExecEnv where
  query_result : QueryResultSet
  collect : CollectOutcome
  get_standings_result : Except PyError (Option Payload)
  get_standings_requests : Nat
  store_raises : Bool
  kafka_raises : Bool
deriving DecidableEq, Repr

/-- The standings miss path as executed: record miss + api call, run
`collect_and_process_data` (uncaught exceptions propagate), run
`get_standings` (ditto), then check `'standings' in standings` and
store/publish/return inside the single `try` whose `except` falls through
to `return None`. `storeWrites` here counts every `add_documents` attempt,
including those made inside `collect_and_process_data`. -/
def standings_miss_path_exec (env : StandingsExecEnv) (m : CacheMonitor) :
    FetchOut Payload :=
  let m := (m.record_miss).record_api_call
  match env.collect.raises with
  | some e => ⟨.raised e, m, env.collect.api_requests, env.collect.db_writes⟩
  | none =>
    let rc := env.collect.api_requests + env.get_standings_requests
    match env.get_standings_result with
    | .error e => ⟨.raised e, m, rc, env.collect.db_writes⟩
    | .ok none => ⟨.nil, m, rc, env.collect.db_writes⟩
    | .ok (some s) =>
      if s.hasStandingsKey then
        if env.store_raises then ⟨.nil, m, rc, env.collect.db_writes + 1⟩
        else if env.kafka_raises then ⟨.nil, m, rc, env.collect.db_writes + 1⟩
        else ⟨.ok s, m, rc, env.collect.db_writes + 1⟩
      else ⟨.nil, m, rc, env.collect.db_writes⟩

/-- src/app.py `fetch_and_store_standings` as executed: the probe block
enters its `try` (the query-result dict is truthy with `len` 4) and
`db_results[0]` raises `KeyError: 0`, caught at app.py:148, so control
always falls to the miss path (were the subscript ever to return, the
subsequent `['metadata']` on a list value would raise `TypeError`, caught
by the same `except`). -/
def fetch_and_store_standings_exec (env : StandingsExecEnv) (m : CacheMonitor) :
    FetchOut Payload :=
  match dictGetItem (queryResultDict env.query_result) (.i 0) with
  | .error _ => standings_miss_path_exec env m
  | .ok _ => standings_miss_path_exec env m

/-- External world for one `fetch_and_store_matches` call as executed:
`get_valid_match_ids` catches its own transport errors
(football_data_api.py:180-212) and returns the accumulated dict, so its
outcome is a value. -/
structure MatchesExecEnv where
  query_result : QueryResultSet
  api_result : Option Payload
  store_raises : Bool
deriving DecidableEq, Repr

/-- src/app.py `fetch_and_store_matches` as executed: the probe's
`db_results[0]` raises `KeyError: 0` (caught at app.py:216), so control
always falls to the miss path. -/
def fetch_and_store_matches_exec (env : MatchesExecEnv) (m : CacheMonitor) :
    FetchOut Payload :=
  match dictGetItem (queryResultDict env.query_result) (.i 0) with
  | .error _ => matches_miss_path_from env.api_result env.store_raises m
  | .ok _ => matches_miss_path_from env.api_result env.store_raises m

/-- External world for one `fetch_and_store_match_analysis` call as
executed: `analyze_match` (app.py:279, no `try`) can raise — its outcome
is an `Except`. -/
structure AnalysisExecEnv where
  query_result : QueryResultSet
  analyze_result : Except PyError (Option Payload)
  store_raises : Bool
deriving DecidableEq, Repr

/-- The recompute step of `fetch_and_store_match_analysis` as executed:
an exception from `analyze_match` propagates; a truthy analysis is stored
and returned inside the `try` whose `except` falls through to
`return None`. -/
def analysis_recompute_exec (env : AnalysisExecEnv) (m : CacheMonitor) :
    FetchOut Payload :=
  match env.analyze_result with
  | .error e => ⟨.raised e, m, 1, 0⟩
  | .ok none => ⟨.nil, m, 1, 0⟩
  | .ok (some a) =>
    if env.store_raises then ⟨.nil, m, 1, 1⟩
    else ⟨.ok a, m, 1, 1⟩

/-- src/app.py `fetch_and_store_match_analysis` as executed: the probe's
`db_results[0]` raises `KeyError: 0` (caught at app.py:274), so control
always falls to the recompute step. -/
def fetch_and_store_match_analysis_exec (env : AnalysisExecEnv)
    (m : CacheMonitor) : FetchOut Payload :=
  match dictGetItem (queryResultDict env.query_result) (.i 0) with
  | .error _ => analysis_recompute_exec env m
  | .ok _ => analysis_recompute_exec env m

/-- External world for one `fetch_and_store_team_data` call as executed:
the raw query-result dict for the team probe, and the world `senv` seen by
the nested as-executed standings call. -/
structure TeamExecEnv where
  team_name : String
  query_result : QueryResultSet
  senv : StandingsExecEnv
  store_raises : Bool
  kafka_raises : Bool
deriving DecidableEq, Repr

/-- src/app.py `fetch_and_store_team_data` as executed: the probe's
`db_results[0]` raises `KeyError: 0` inside the `try: ... except: pass`
(app.py:348-351), so control always falls to the nested standings call
and the uncaught-store/publish miss path. -/
def fetch_and_store_team_data_exec (env : TeamExecEnv) (m : CacheMonitor) :
    FetchOut Team :=
  match dictGetItem (queryResultDict env.query_result) (.i 0) with
  | .error _ => team_data_miss_path_from env.team_name env.store_raises
      env.kafka_raises (fetch_and_store_standings_exec env.senv m)
  | .ok _ => team_data_miss_path_from env.team_name env.store_raises
      env.kafka_raises (fetch_and_store_standings_exec env.senv m)

/-! ### Helper lemmas shared across the claim theorems -/

/-- Every run of `fetch_and_store_standings` either returns a validated
stored payload recording one hit, or records a hit on a valid envelope
whose `data` key is missing and then falls through to the miss path, or
goes straight to the miss path. -/
theorem standings_shape (env : StandingsEnv) (m : CacheMonitor) :
    (∃ d p, env.db_result = some (.ok d)
      ∧ is_data_valid d "standings" env.now = .ok true ∧ d.ddata = some p
      ∧ fetch_and_store_standings env m = ⟨.ok p, m.record_hit, 0, 0⟩)
    ∨ (∃ d, env.db_result = some (.ok d)
      ∧ is_data_valid d "standings" env.now = .ok true ∧ d.ddata = none
      ∧ fetch_and_store_standings env m = standings_miss_path env m.record_hit)
    ∨ fetch_and_store_standings env m = standings_miss_path env m := by
  unfold fetch_and_store_standings
  rcases hdb : env.db_result with _ | pr
  · right; right; rfl
  · rcases pr with u | d
    · right; right; rfl
    · rcases hv : is_data_valid d "standings" env.now with e | b
      · right; right; simp [hv]
      · rcases b with _ | _
        · right; right; simp [hv]
        · rcases hd : d.ddata with _ | p
          · right; left; exact ⟨d, rfl, hv, hd, by simp [hv, hd]⟩
          · left; exact ⟨d, p, rfl, hv, hd, by simp [hv, hd]⟩

/-- Same shape analysis for `fetch_and_store_matches`. -/
theorem matches_shape (env : MatchesEnv) (m : CacheMonitor) :
    (∃ d p, env.db_result = some (.ok d)
      ∧ is_data_valid d "matches" env.now = .ok true ∧ d.ddata = some p
      ∧ fetch_and_store_matches env m = ⟨.ok p, m.record_hit, 0, 0⟩)
    ∨ (∃ d, env.db_result = some (.ok d)
      ∧ is_data_valid d "matches" env.now = .ok true ∧ d.ddata = none
      ∧ fetch_and_store_matches env m = matches_miss_path env m.record_hit)
    ∨ fetch_and_store_matches env m = matches_miss_path env m := by
  unfold fetch_and_store_matches
  rcases hdb : env.db_result with _ | pr
  · right; right; rfl
  · rcases pr with u | d
    · right; right; rfl
    · rcases hv : is_data_valid d "matches" env.now with e | b
      · right; right; simp [hv]
      · rcases b with _ | _
        · right; right; simp [hv]
        · rcases hd : d.ddata with _ | p
          · right; left; exact ⟨d, rfl, hv, hd, by simp [hv, hd]⟩
          · left; exact ⟨d, p, rfl, hv, hd, by simp [hv, hd]⟩

/-- The standings miss path never raises, increments miss and api-call
exactly once, and returns a payload only when it is the (key-checked)
remote result with both the store write and the publish succeeding. -/
theorem standings_miss_path_spec (env : StandingsEnv) (m : CacheMonitor) :
    (standings_miss_path env m).monitor
      = ⟨m.hits, m.misses + 1, m.api_calls + 1⟩
    ∧ (∀ e, (standings_miss_path env m).result ≠ .raised e)
    ∧ (∀ p, (standings_miss_path env m).result = .ok p →
        env.api_result = some p ∧ p.hasStandingsKey = true
        ∧ env.store_raises = false ∧ env.kafka_raises = false)
    ∧ (env.api_result = none →
        (standings_miss_path env m).result = .nil
        ∧ (standings_miss_path env m).storeWrites = 0)
    ∧ (env.store_raises = true → (standings_miss_path env m).result = .nil) := by
  unfold standings_miss_path
  rcases ha : env.api_result with _ | s
  · simp [CacheMonitor.record_miss, CacheMonitor.record_api_call]
  · rcases hk : s.hasStandingsKey with _ | _
    · simp [CacheMonitor.record_miss, CacheMonitor.record_api_call, hk]
    · rcases hs : env.store_raises with _ | _
      · rcases hkf : env.kafka_raises with _ | _
        · simp [CacheMonitor.record_miss, CacheMonitor.record_api_call, hk, hs, hkf]
        · simp [CacheMonitor.record_miss, CacheMonitor.record_api_call, hk, hs, hkf]
      · simp [CacheMonitor.record_miss, CacheMonitor.record_api_call, hk, hs]

/-- Counterpart of `standings_miss_path_spec` for the matches miss path,
over its explicit parameters. -/
theorem matches_miss_path_from_spec (api_result : Option Payload) (sr : Bool)
    (m : CacheMonitor) :
    (matches_miss_path_from api_result sr m).monitor
      = ⟨m.hits, m.misses + 1, m.api_calls + 1⟩
    ∧ (∀ e, (matches_miss_path_from api_result sr m).result ≠ .raised e)
    ∧ (∀ p, (matches_miss_path_from api_result sr m).result = .ok p →
        api_result = some p ∧ sr = false)
    ∧ (api_result = none →
        (matches_miss_path_from api_result sr m).result = .nil
        ∧ (matches_miss_path_from api_result sr m).storeWrites = 0)
    ∧ (sr = true → (matches_miss_path_from api_result sr m).result = .nil) := by
  unfold matches_miss_path_from
  rcases api_result with _ | s
  · simp [CacheMonitor.record_miss, CacheMonitor.record_api_call]
  · rcases sr with _ | _
    · simp [CacheMonitor.record_miss, CacheMonitor.record_api_call]
    · simp [CacheMonitor.record_miss, CacheMonitor.record_api_call]

/-- Counterpart of `standings_miss_path_spec` for the matches miss path. -/
theorem matches_miss_path_spec (env : MatchesEnv) (m : CacheMonitor) :
    (matches_miss_path env m).monitor
      = ⟨m.hits, m.misses + 1, m.api_calls + 1⟩
    ∧ (∀ e, (matches_miss_path env m).result ≠ .raised e)
    ∧ (∀ p, (matches_miss_path env m).result = .ok p →
        env.api_result = some p ∧ env.store_raises = false)
    ∧ (env.api_result = none →
        (matches_miss_path env m).result = .nil
        ∧ (matches_miss_path env m).storeWrites = 0)
    ∧ (env.store_raises = true → (matches_miss_path env m).result = .nil) := by
  unfold matches_miss_path
  exact matches_miss_path_from_spec env.api_result env.store_raises m

/-- Behaviour of the analysis operation: the monitor is untouched, no
exception escapes, and a store failure on a full miss yields `None`. -/
theorem analysis_spec (env : AnalysisEnv) (m : CacheMonitor) :
    (fetch_and_store_match_analysis env m).monitor = m
    ∧ (∀ e, (fetch_and_store_match_analysis env m).result ≠ .raised e)
    ∧ (env.db_result = none → env.store_raises = true →
        (fetch_and_store_match_analysis env m).result = .nil) := by
  unfold fetch_and_store_match_analysis
  rcases hdb : env.db_result with _ | ⟨u | a⟩
  · rcases ha : env.api_result with _ | a
    · simp
    · rcases hs : env.store_raises with _ | _ <;> simp [hs]
  · rcases ha : env.api_result with _ | a
    · simp
    · rcases hs : env.store_raises with _ | _ <;> simp [hs]
  · simp

/-- Splitting a `fetch_and_store_team_data` run into its two paths. -/
theorem team_data_split (env : TeamEnv) (m : CacheMonitor) :
    (∃ t, env.db_result = some (.ok t)
      ∧ fetch_and_store_team_data env m = ⟨.ok t, m, 0, 0⟩)
    ∨ fetch_and_store_team_data env m
        = team_data_miss_path env (fetch_and_store_standings env.senv m) := by
  unfold fetch_and_store_team_data
  rcases hdb : env.db_result with _ | ⟨u | t⟩
  · right; rfl
  · right; rfl
  · left; exact ⟨t, rfl, rfl⟩

/-- Behaviour of the team-data miss path over its explicit parameters:
the monitor passes through; an escaping exception is either propagated
from `sout` or the uncaught store/publish error; a store failure after a
successful team lookup raises. -/
theorem team_data_miss_path_from_spec (team_name : String) (sr kr : Bool)
    (sout : FetchOut Payload) :
    (team_data_miss_path_from team_name sr kr sout).monitor = sout.monitor
    ∧ (∀ e, (team_data_miss_path_from team_name sr kr sout).result = .raised e →
        sout.result = .raised e ∨ e = .storeError ∨ e = .kafkaError)
    ∧ (∀ s t, sout.result = .ok s → s.hasStandingsKey = true →
        (findExact (get_full_team_name team_name) s.table).orElse
          (fun _ => findPartial (get_full_team_name team_name) s.table)
          = some t →
        sr = true →
        (team_data_miss_path_from team_name sr kr sout).result
          = .raised .storeError) := by
  unfold team_data_miss_path_from
  rcases hr : sout.result with s | _ | e
  · rcases hk : s.hasStandingsKey with _ | _
    · simp [hk]
      intro s1 t hss hk1 hf1
      rw [← hss, hk] at hk1
      simp at hk1
    · rcases hf : (findExact (get_full_team_name team_name) s.table).orElse
        (fun _ => findPartial (get_full_team_name team_name) s.table)
        with _ | t
      · simp [hk, hf]
        intro s1 t hss hk1 hf1
        rw [← hss, hf] at hf1
        simp at hf1
      · rcases sr with _ | _
        · rcases kr with _ | _ <;> simp [hk, hf]
        · simp [hk, hf]
  · simp
  · simp [hr]

/-- Behaviour of the team-data miss path relative to the nested standings
outcome `sout`: the monitor passes through; an escaping exception is
either propagated from `sout` or the uncaught store/publish error; a store
failure after a successful team lookup raises. -/
theorem team_data_miss_path_spec (env : TeamEnv) (sout : FetchOut Payload) :
    (team_data_miss_path env sout).monitor = sout.monitor
    ∧ (∀ e, (team_data_miss_path env sout).result = .raised e →
        sout.result = .raised e ∨ e = .storeError ∨ e = .kafkaError)
    ∧ (∀ s t, sout.result = .ok s → s.hasStandingsKey = true →
        (findExact (get_full_team_name env.team_name) s.table).orElse
          (fun _ => findPartial (get_full_team_name env.team_name) s.table)
          = some t →
        env.store_raises = true →
        (team_data_miss_path env sout).result = .raised .storeError) := by
  unfold team_data_miss_path
  exact team_data_miss_path_from_spec env.team_name env.store_raises
    env.kafka_raises sout

/-- Subscripting the query-result dict with an integer key always raises
`KeyError`: every key of the dict is a string. -/
theorem dictGetItem_int_key (r : QueryResultSet) (n : Int) :
    dictGetItem (queryResultDict r) (.i n) = .error (.keyError (toString n)) := by
  simp [dictGetItem, queryResultDict, pyKeyStr]

/-- As executed, the standings operation is its miss path: the probe's
integer subscript raises and is caught on every run. -/
theorem fetch_standings_exec_eq (env : StandingsExecEnv) (m : CacheMonitor) :
    fetch_and_store_standings_exec env m = standings_miss_path_exec env m := by
  unfold fetch_and_store_standings_exec
  rcases h : dictGetItem (queryResultDict env.query_result) (.i 0) with e | v <;>
    simp [h]

/-- As executed, the matches operation is its miss path. -/
theorem fetch_matches_exec_eq (env : MatchesExecEnv) (m : CacheMonitor) :
    fetch_and_store_matches_exec env m
      = matches_miss_path_from env.api_result env.store_raises m := by
  unfold fetch_and_store_matches_exec
  rcases h : dictGetItem (queryResultDict env.query_result) (.i 0) with e | v <;>
    simp [h]

/-- As executed, the analysis operation is its recompute step. -/
theorem fetch_analysis_exec_eq (env : AnalysisExecEnv) (m : CacheMonitor) :
    fetch_and_store_match_analysis_exec env m = analysis_recompute_exec env m := by
  unfold fetch_and_store_match_analysis_exec
  rcases h : dictGetItem (queryResultDict env.query_result) (.i 0) with e | v <;>
    simp [h]

/-- As executed, the team-data operation is its miss path applied to the
nested as-executed standings outcome. -/
theorem fetch_team_exec_eq (env : TeamExecEnv) (m : CacheMonitor) :
    fetch_and_store_team_data_exec env m
      = team_data_miss_path_from env.team_name env.store_raises env.kafka_raises
          (fetch_and_store_standings_exec env.senv m) := by
  unfold fetch_and_store_team_data_exec
  rcases h : dictGetItem (queryResultDict env.query_result) (.i 0) with e | v <;>
    simp [h]

/-- The as-executed standings miss path records one miss and one api call,
raises only what `collect_and_process_data` or `get_standings` raised, and
returns a payload only when it is the key-checked fresh remote result with
both the envelope write and the publish succeeding. -/
theorem standings_miss_path_exec_spec (env : StandingsExecEnv) (m : CacheMonitor) :
    (standings_miss_path_exec env m).monitor
      = ⟨m.hits, m.misses + 1, m.api_calls + 1⟩
    ∧ (∀ e, (standings_miss_path_exec env m).result = .raised e →
        env.collect.raises = some e ∨ env.get_standings_result = .error e)
    ∧ (∀ p, (standings_miss_path_exec env m).result = .ok p →
        env.get_standings_result = .ok (some p) ∧ p.hasStandingsKey = true
        ∧ env.store_raises = false ∧ env.kafka_raises = false) := by
  unfold standings_miss_path_exec
  rcases hc : env.collect.raises with _ | e0
  · rcases hg : env.get_standings_result with e1 | op
    · simp [CacheMonitor.record_miss, CacheMonitor.record_api_call, hg]
    · rcases op with _ | s
      · simp [CacheMonitor.record_miss, CacheMonitor.record_api_call]
      · rcases hk : s.hasStandingsKey with _ | _
        · simp [CacheMonitor.record_miss, CacheMonitor.record_api_call, hk]
        · rcases hs : env.store_raises with _ | _
          · rcases hkf : env.kafka_raises with _ | _ <;>
              simp [CacheMonitor.record_miss, CacheMonitor.record_api_call,
                hg, hk, hs, hkf]
          · simp [CacheMonitor.record_miss, CacheMonitor.record_api_call,
              hk, hs]
  · simp [CacheMonitor.record_miss, CacheMonitor.record_api_call, hc]

/-- The as-executed analysis recompute step raises only what
`analyze_match` raised and returns only a fresh analysis with the store
write succeeding; the monitor is untouched. -/
theorem analysis_recompute_exec_spec (env : AnalysisExecEnv) (m : CacheMonitor) :
    (analysis_recompute_exec env m).monitor = m
    ∧ (∀ e, (analysis_recompute_exec env m).result = .raised e →
        env.analyze_result = .error e)
    ∧ (∀ p, (analysis_recompute_exec env m).result = .ok p →
        env.analyze_result = .ok (some p) ∧ env.store_raises = false) := by
  unfold analysis_recompute_exec
  rcases ha : env.analyze_result with e0 | op
  · simp [ha]
  · rcases op with _ | a
    · simp
    · rcases hs : env.store_raises with _ | _ <;> simp [ha, hs]

/-! ### Claim theorems -/

/-- C2: for every envelope carrying a timestamp and a version and every
one of the four categories, `is_data_valid` returns `True` iff
`now - timestamp` is strictly below the category's configured ttl and the
version equals the category's configured version; the configuration is
per-category and is 300 seconds / "1.0" for all four categories. -/
theorem is_data_valid_iff_fresh_and_matching_version
    {α : Type} (d : StoredDict α) (ts : ℚ) (v : String) (cat : String) (now : ℚ)
    (hts : d.timestamp = some ts) (hv : d.version = some v)
    (hcat : cat ∈ cacheCategories) :
    (is_data_valid d cat now = .ok true ↔ (now - ts < 300 ∧ v = "1.0"))
    ∧ CACHE_CONFIG cat = some ⟨300, "1.0"⟩ := by
  have hcfg : CACHE_CONFIG cat = some ⟨300, "1.0"⟩ := by
    simp only [cacheCategories, List.mem_cons, List.not_mem_nil, or_false] at hcat
    rcases hcat with rfl | rfl | rfl | rfl <;> rfl
  refine ⟨?_, hcfg⟩
  simp [is_data_valid, hts, hv, hcfg]

/-- C2 witness: a fresh, version-matching envelope is valid for category
`standings` 100 seconds after being written. -/
theorem is_data_valid_iff_fresh_and_matching_version_witness :
    is_data_valid
      (⟨some (⟨7, true, []⟩ : Payload), some "1.0", some 0⟩ : StoredDict Payload)
      "standings" 100 = .ok true :=
  ((is_data_valid_iff_fresh_and_matching_version _ 0 "1.0" "standings" 100
      rfl rfl (by simp [cacheCategories])).1).mpr ⟨by norm_num, rfl⟩

/-- C4: the claim's hit path is dead code in the program as executed —
`db_results[0]` integer-indexes the string-keyed query-result dict and
raises `KeyError: 0` on every store state, so even a store holding a
valid envelope yields the miss path: one miss and one api call are
recorded, the remote source is consulted, and the hit counter is never
incremented. -/
theorem standings_hit_path_unreachable (env : StandingsExecEnv)
    (m : CacheMonitor) :
    dictGetItem (queryResultDict env.query_result) (.i 0)
      = .error (.keyError "0")
    ∧ fetch_and_store_standings_exec env m = standings_miss_path_exec env m
    ∧ (fetch_and_store_standings_exec env m).monitor
        = ⟨m.hits, m.misses + 1, m.api_calls + 1⟩ := by
  refine ⟨by simpa using dictGetItem_int_key env.query_result 0,
    fetch_standings_exec_eq env m, ?_⟩
  rw [fetch_standings_exec_eq]
  exact (standings_miss_path_exec_spec env m).1

/-- C8: `_make_request` returns the parsed body on a 200 response; on a
429 it performs one sleep of the configured minimum interval (6 seconds)
and retries the identical request, recursively and with no retry ceiling
(any number of consecutive 429s is retried through); any other status
returns `None` without retrying. -/
theorem make_request_retry_behavior :
    min_request_interval = 6
    ∧ (∀ b rest, make_request (⟨200, b⟩ :: rest) = (.ok b, 0))
    ∧ (∀ b rest, make_request (⟨429, b⟩ :: rest)
        = ((make_request rest).1, (make_request rest).2 + 1))
    ∧ (∀ c b rest, c ≠ 200 → c ≠ 429 →
        make_request (⟨c, b⟩ :: rest) = (.failed c, 0))
    ∧ (∀ k b rest, make_request
        (List.replicate k ⟨429, ""⟩ ++ (⟨200, b⟩ :: rest)) = (.ok b, k)) := by
  refine ⟨rfl, ?_, ?_, ?_, ?_⟩
  · intro b rest; simp [make_request]
  · intro b rest
    rcases hmr : make_request rest with ⟨r, s⟩
    simp [make_request, hmr]
  · intro c b rest h200 h429; simp [make_request, h200, h429]
  · intro k b rest
    induction k with
    | zero => simp [make_request]
    | succ n ih =>
      rw [List.replicate_succ, List.cons_append]
      simp [make_request, ih]

/-- C8 witness: a 404 fails without retrying; three consecutive 429s are
retried through to the eventual 200. -/
theorem make_request_retry_behavior_witness :
    make_request [⟨404, "x"⟩] = (.failed 404, 0)
    ∧ make_request
        (List.replicate 3 ⟨429, ""⟩ ++ (⟨200, "body"⟩ :: [])) = (.ok "body", 3) :=
  ⟨make_request_retry_behavior.2.2.2.1 404 "x" [] (by decide) (by decide),
   make_request_retry_behavior.2.2.2.2 3 "body" []⟩

/-- C9: for every known collection name, `query_collection` never
propagates an exception, and when the underlying store query raises it
returns the empty result structure instead. -/
theorem query_collection_never_raises
    (u : String → String → Nat → Except Unit QueryResultSet)
    (name q : String) (n : Nat) (h : name ∈ collection_names) :
    (∀ e, query_collection u name q n ≠ .error e)
    ∧ (∀ er, u name q n = .error er →
        query_collection u name q n = .ok emptyQueryResult) := by
  unfold query_collection
  rw [if_pos h]
  constructor
  · intro e hcontra
    rcases hu : u name q n with er | r <;> simp [hu] at hcontra
  · intro er hu
    simp [hu]

/-- C9 witness: with an underlying query that always raises, querying the
`epl_teams` collection yields the empty result structure. -/
theorem query_collection_never_raises_witness :
    query_collection (fun _ _ _ => .error ()) "epl_teams" "standings" 1
      = .ok emptyQueryResult :=
  (query_collection_never_raises _ "epl_teams" "standings" 1
    (by simp [collection_names])).2 () rfl

/-- Evaluating the one-decimal percentage renderer at zero. -/
theorem format_pct_zero : format_pct 0 = "0.0%" := by
  have h0 : (Int.floor ((0 : ℚ) * 10 + 1 / 2) : ℤ) = 0 := by
    rw [Int.floor_eq_zero_iff]
    constructor <;> norm_num
  unfold format_pct
  rw [h0]
  rfl

/-- C10: `get_stats` always succeeds and never divides by zero: with no
recorded hits or misses the reported hit rate is 0, rendered "0.0%";
otherwise it is hits / (hits + misses) as a percentage. -/
theorem get_stats_no_division_by_zero (m : CacheMonitor) :
    (m.hits + m.misses = 0 →
      (m.get_stats).hit_rate = 0 ∧ (m.get_stats).hit_rate_str = "0.0%")
    ∧ (0 < m.hits + m.misses →
      (m.get_stats).hit_rate
        = (m.hits : ℚ) / ((m.hits + m.misses : ℕ) : ℚ) * 100) := by
  constructor
  · intro h
    constructor
    · simp [CacheMonitor.get_stats, h]
    · simp [CacheMonitor.get_stats, h, format_pct_zero]
  · intro h
    simp [CacheMonitor.get_stats, h]

/-- C10 witness: a fresh monitor renders "0.0%", and 3 hits out of 4
lookups give a 75 percent hit rate. -/
theorem get_stats_no_division_by_zero_witness :
    (CacheMonitor.get_stats ⟨0, 0, 7⟩).hit_rate_str = "0.0%"
    ∧ (CacheMonitor.get_stats ⟨3, 1, 2⟩).hit_rate = 75 := by
  refine ⟨((get_stats_no_division_by_zero ⟨0, 0, 7⟩).1 rfl).2, ?_⟩
  have h := (get_stats_no_division_by_zero ⟨3, 1, 2⟩).2 (by norm_num)
  rw [h]
  norm_num

/-- C6: when the remote fetch yields an empty/falsy result, the standings
and matches operations perform no store write and raise no error, and
unless a valid cached envelope was returned (hit path) the caller gets
`None`. -/
theorem falsy_fetch_returns_none_without_write
    (env : StandingsEnv) (env2 : MatchesEnv) (m m2 : CacheMonitor)
    (h1 : env.api_result = none) (h2 : env2.api_result = none) :
    ((fetch_and_store_standings env m).storeWrites = 0
      ∧ (∀ e, (fetch_and_store_standings env m).result ≠ .raised e)
      ∧ ((fetch_and_store_standings env m).result = .nil
        ∨ ∃ d p, env.db_result = some (.ok d)
            ∧ is_data_valid d "standings" env.now = .ok true
            ∧ d.ddata = some p
            ∧ (fetch_and_store_standings env m).result = .ok p))
    ∧ ((fetch_and_store_matches env2 m2).storeWrites = 0
      ∧ (∀ e, (fetch_and_store_matches env2 m2).result ≠ .raised e)
      ∧ ((fetch_and_store_matches env2 m2).result = .nil
        ∨ ∃ d p, env2.db_result = some (.ok d)
            ∧ is_data_valid d "matches" env2.now = .ok true
            ∧ d.ddata = some p
            ∧ (fetch_and_store_matches env2 m2).result = .ok p)) := by
  constructor
  · rcases standings_shape env m with ⟨d, p, hdb, hv, hd, heq⟩ | ⟨d, _, _, _, heq⟩ | heq
    · exact ⟨by rw [heq], by rw [heq]; simp,
        Or.inr ⟨d, p, hdb, hv, hd, by rw [heq]⟩⟩
    · obtain ⟨_, hnr, _, hnone, _⟩ := standings_miss_path_spec env m.record_hit
      rw [heq]
      exact ⟨(hnone h1).2, hnr, Or.inl (hnone h1).1⟩
    · obtain ⟨_, hnr, _, hnone, _⟩ := standings_miss_path_spec env m
      rw [heq]
      exact ⟨(hnone h1).2, hnr, Or.inl (hnone h1).1⟩
  · rcases matches_shape env2 m2 with ⟨d, p, hdb, hv, hd, heq⟩ | ⟨d, _, _, _, heq⟩ | heq
    · exact ⟨by rw [heq], by rw [heq]; simp,
        Or.inr ⟨d, p, hdb, hv, hd, by rw [heq]⟩⟩
    · obtain ⟨_, hnr, _, hnone, _⟩ := matches_miss_path_spec env2 m2.record_hit
      rw [heq]
      exact ⟨(hnone h2).2, hnr, Or.inl (hnone h2).1⟩
    · obtain ⟨_, hnr, _, hnone, _⟩ := matches_miss_path_spec env2 m2
      rw [heq]
      exact ⟨(hnone h2).2, hnr, Or.inl (hnone h2).1⟩

/-- C6 witness: with an empty store and a falsy remote result, both
operations return `None` with zero store writes. -/
theorem falsy_fetch_returns_none_without_write_witness :
    (fetch_and_store_standings (⟨0, none, none, false, false⟩ : StandingsEnv)
      ⟨0, 0, 0⟩).storeWrites = 0
    ∧ (fetch_and_store_matches (⟨0, none, none, false⟩ : MatchesEnv)
      ⟨0, 0, 0⟩).storeWrites = 0 :=
  ⟨(falsy_fetch_returns_none_without_write
      ⟨0, none, none, false, false⟩ ⟨0, none, none, false⟩
      ⟨0, 0, 0⟩ ⟨0, 0, 0⟩ rfl rfl).1.1,
   (falsy_fetch_returns_none_without_write
      ⟨0, none, none, false, false⟩ ⟨0, none, none, false⟩
      ⟨0, 0, 0⟩ ⟨0, 0, 0⟩ rfl rfl).2.1⟩

/-- C1 counterexample: with an empty store, a successful standings fetch
containing Arsenal's row, and a failing `add_documents`, the team-data
operation raises the store error to the caller — contradicting the claim
that store failures never surface from any cache-fetch operation. -/
theorem team_data_store_exception_cex :
    (fetch_and_store_team_data
      (⟨"Arsenal", none,
        ⟨0, none, some ⟨1, true, [⟨"Arsenal FC", 57⟩]⟩, false, false⟩,
        true, false⟩ : TeamEnv)
      ⟨0, 0, 0⟩).result = .raised .storeError := by
  decide

/-- C1 (amended): as executed, every payload a fetch operation returns is
freshly fetched (the cached-hit return is unreachable, so no stale cached
payload is ever returned); the envelope write-back and publish failures
in standings, matches and analysis are caught (they yield `None`, never
an exception); but exceptions are not otherwise shielded: standings
propagates whatever `collect_and_process_data` or `get_standings` raises
(including that function's own internal store errors), analysis
propagates whatever `analyze_match` raises, and team-data propagates the
nested standings call's exceptions besides raising its own uncaught
store/publish errors; the matches adapter catches its transport errors,
so that operation never raises. -/
theorem fetch_exception_paths_characterized :
    (∀ (env : StandingsExecEnv) (m : CacheMonitor) (e : PyError),
        (fetch_and_store_standings_exec env m).result = .raised e →
          env.collect.raises = some e ∨ env.get_standings_result = .error e)
    ∧ (∀ (env : StandingsExecEnv) (m : CacheMonitor) (p : Payload),
        (fetch_and_store_standings_exec env m).result = .ok p →
          env.get_standings_result = .ok (some p) ∧ p.hasStandingsKey = true
          ∧ env.store_raises = false ∧ env.kafka_raises = false)
    ∧ (∀ (env : MatchesExecEnv) (m : CacheMonitor) (e : PyError),
        (fetch_and_store_matches_exec env m).result ≠ .raised e)
    ∧ (∀ (env : MatchesExecEnv) (m : CacheMonitor) (p : Payload),
        (fetch_and_store_matches_exec env m).result = .ok p →
          env.api_result = some p ∧ env.store_raises = false)
    ∧ (∀ (env : AnalysisExecEnv) (m : CacheMonitor) (e : PyError),
        (fetch_and_store_match_analysis_exec env m).result = .raised e →
          env.analyze_result = .error e)
    ∧ (∀ (env : AnalysisExecEnv) (m : CacheMonitor) (p : Payload),
        (fetch_and_store_match_analysis_exec env m).result = .ok p →
          env.analyze_result = .ok (some p) ∧ env.store_raises = false)
    ∧ (∀ (env : TeamExecEnv) (m : CacheMonitor) (e : PyError),
        (fetch_and_store_team_data_exec env m).result = .raised e →
          env.senv.collect.raises = some e
          ∨ env.senv.get_standings_result = .error e
          ∨ e = .storeError ∨ e = .kafkaError) := by
  refine ⟨?_, ?_, ?_, ?_, ?_, ?_, ?_⟩
  · intro env m e h
    rw [fetch_standings_exec_eq] at h
    exact (standings_miss_path_exec_spec env m).2.1 e h
  · intro env m p h
    rw [fetch_standings_exec_eq] at h
    exact (standings_miss_path_exec_spec env m).2.2 p h
  · intro env m e
    rw [fetch_matches_exec_eq]
    exact (matches_miss_path_from_spec env.api_result env.store_raises m).2.1 e
  · intro env m p h
    rw [fetch_matches_exec_eq] at h
    exact (matches_miss_path_from_spec env.api_result env.store_raises m).2.2.1 p h
  · intro env m e h
    rw [fetch_analysis_exec_eq] at h
    exact (analysis_recompute_exec_spec env m).2.1 e h
  · intro env m p h
    rw [fetch_analysis_exec_eq] at h
    exact (analysis_recompute_exec_spec env m).2.2 p h
  · intro env m e h
    rw [fetch_team_exec_eq] at h
    rcases (team_data_miss_path_from_spec env.team_name env.store_raises
        env.kafka_raises (fetch_and_store_standings_exec env.senv m)).2.1 e h
      with hs | hrest
    · rw [fetch_standings_exec_eq] at hs
      rcases (standings_miss_path_exec_spec env.senv m).2.1 e hs with h1 | h2
      · exact Or.inl h1
      · exact Or.inr (Or.inl h2)
    · rcases hrest with h1 | h2
      · exact Or.inr (Or.inr (Or.inl h1))
      · exact Or.inr (Or.inr (Or.inr h2))

/-- C1 amended witness: concrete instantiations discharging the
hypotheses — an exception raised out of the as-executed standings
operation is traced to its `collect_and_process_data` step, and one
raised out of the as-executed analysis operation to its `analyze_match`
step. -/
theorem fetch_exception_paths_characterized_witness :
    ((⟨emptyQueryResult, ⟨some .storeError, 5, 2⟩, .ok none, 0, false, false⟩ :
        StandingsExecEnv).collect.raises = some .storeError
      ∨ (⟨emptyQueryResult, ⟨some .storeError, 5, 2⟩, .ok none, 0, false, false⟩ :
        StandingsExecEnv).get_standings_result = .error .storeError)
    ∧ (⟨emptyQueryResult, .error (.valueError "boom"), false⟩ :
        AnalysisExecEnv).analyze_result = .error (.valueError "boom") :=
  ⟨fetch_exception_paths_characterized.1
      ⟨emptyQueryResult, ⟨some .storeError, 5, 2⟩, .ok none, 0, false, false⟩
      ⟨0, 0, 0⟩ .storeError (by decide),
   fetch_exception_paths_characterized.2.2.2.2.1
      ⟨emptyQueryResult, .error (.valueError "boom"), false⟩
      ⟨0, 0, 0⟩ (.valueError "boom") (by decide)⟩

/-- C3 counterexample: with an empty store, a successful remote standings
fetch and a failing `add_documents`, the operation returns `None` — not
the freshly fetched payload, because the `return` statement sits inside
the same `try` as the store write. -/
theorem standings_persistence_failure_cex :
    (fetch_and_store_standings
      (⟨0, none, some ⟨1, true, []⟩, true, false⟩ : StandingsEnv)
      ⟨0, 0, 0⟩).result = .nil := by
  decide

/-- C3 (amended): when the remote fetch succeeds but the store write-back
raises, the standings, matches and analysis operations log the error and
return `None` (not the payload, not an exception), and the team-data
operation propagates the store exception to the caller. -/
theorem persistence_failure_returns_none :
    (∀ (env : StandingsEnv) (m : CacheMonitor), env.db_result = none →
        env.store_raises = true →
        (fetch_and_store_standings env m).result = .nil)
    ∧ (∀ (env : MatchesEnv) (m : CacheMonitor), env.db_result = none →
        env.store_raises = true →
        (fetch_and_store_matches env m).result = .nil)
    ∧ (∀ (env : AnalysisEnv) (m : CacheMonitor), env.db_result = none →
        env.store_raises = true →
        (fetch_and_store_match_analysis env m).result = .nil)
    ∧ (∀ (env : TeamEnv) (m : CacheMonitor) (s : Payload) (t : Team),
        env.db_result = none → env.store_raises = true →
        (fetch_and_store_standings env.senv m).result = .ok s →
        s.hasStandingsKey = true →
        (findExact (get_full_team_name env.team_name) s.table).orElse
          (fun _ => findPartial (get_full_team_name env.team_name) s.table)
          = some t →
        (fetch_and_store_team_data env m).result = .raised .storeError) := by
  refine ⟨?_, ?_, ?_, ?_⟩
  · intro env m hdb hs
    rcases standings_shape env m with ⟨d, p, hdb2, _⟩ | ⟨d, hdb2, _⟩ | heq
    · rw [hdb] at hdb2; cases hdb2
    · rw [hdb] at hdb2; cases hdb2
    · rw [heq]
      exact (standings_miss_path_spec env m).2.2.2.2 hs
  · intro env m hdb hs
    rcases matches_shape env m with ⟨d, p, hdb2, _⟩ | ⟨d, hdb2, _⟩ | heq
    · rw [hdb] at hdb2; cases hdb2
    · rw [hdb] at hdb2; cases hdb2
    · rw [heq]
      exact (matches_miss_path_spec env m).2.2.2.2 hs
  · exact fun env m hdb hs => (analysis_spec env m).2.2 hdb hs
  · intro env m s t hdb hs hok hk hf
    rcases team_data_split env m with ⟨t', hdb2, _⟩ | heq
    · rw [hdb] at hdb2; cases hdb2
    · rw [heq]
      exact (team_data_miss_path_spec env _).2.2 s t hok hk hf hs

/-- C3 amended witness: a failing write-back on the matches miss path
yields `None` at a concrete input. -/
theorem persistence_failure_returns_none_witness :
    (fetch_and_store_matches (⟨0, none, some ⟨2, false, []⟩, true⟩ : MatchesEnv)
      ⟨0, 0, 0⟩).result = .nil :=
  persistence_failure_returns_none.2.1
    ⟨0, none, some ⟨2, false, []⟩, true⟩ ⟨0, 0, 0⟩ rfl rfl

/-- C5 counterexample: a full run of the analysis operation (miss path
with a successful fetch and store) leaves hits, misses and api-calls all
at 0 — it increments neither of the hit/miss counters. -/
theorem analysis_no_counter_update_cex :
    (fetch_and_store_match_analysis
      (⟨none, some ⟨1, true, []⟩, false⟩ : AnalysisEnv)
      ⟨0, 0, 0⟩).monitor = ⟨0, 0, 0⟩ := by
  decide

/-- C5 (amended): the standings and matches operations record either
exactly one hit, or exactly one miss together with exactly one api call
(even when the fetch fails) — or, in the edge case of a valid envelope
lacking its data field, one hit and one miss and one api call; the
analysis operation never updates the counters; the team-data operation
updates them only through its nested standings call. -/
theorem metrics_increment_discipline :
    (∀ (env : StandingsEnv) (m : CacheMonitor),
        (fetch_and_store_standings env m).monitor
            = ⟨m.hits + 1, m.misses, m.api_calls⟩
        ∨ (fetch_and_store_standings env m).monitor
            = ⟨m.hits, m.misses + 1, m.api_calls + 1⟩
        ∨ (fetch_and_store_standings env m).monitor
            = ⟨m.hits + 1, m.misses + 1, m.api_calls + 1⟩)
    ∧ (∀ (env : MatchesEnv) (m : CacheMonitor),
        (fetch_and_store_matches env m).monitor
            = ⟨m.hits + 1, m.misses, m.api_calls⟩
        ∨ (fetch_and_store_matches env m).monitor
            = ⟨m.hits, m.misses + 1, m.api_calls + 1⟩
        ∨ (fetch_and_store_matches env m).monitor
            = ⟨m.hits + 1, m.misses + 1, m.api_calls + 1⟩)
    ∧ (∀ (env : AnalysisEnv) (m : CacheMonitor),
        (fetch_and_store_match_analysis env m).monitor = m)
    ∧ (∀ (env : TeamEnv) (m : CacheMonitor),
        (fetch_and_store_team_data env m).monitor = m
        ∨ (fetch_and_store_team_data env m).monitor
            = (fetch_and_store_standings env.senv m).monitor) := by
  refine ⟨?_, ?_, fun env m => (analysis_spec env m).1, ?_⟩
  · intro env m
    rcases standings_shape env m with ⟨d, p, _, _, _, heq⟩ | ⟨d, _, _, _, heq⟩ | heq
    · left; rw [heq]; rfl
    · right; right; rw [heq]
      exact (standings_miss_path_spec env m.record_hit).1
    · right; left; rw [heq]
      exact (standings_miss_path_spec env m).1
  · intro env m
    rcases matches_shape env m with ⟨d, p, _, _, _, heq⟩ | ⟨d, _, _, _, heq⟩ | heq
    · left; rw [heq]; rfl
    · right; right; rw [heq]
      exact (matches_miss_path_spec env m.record_hit).1
    · right; left; rw [heq]
      exact (matches_miss_path_spec env m).1
  · intro env m
    rcases team_data_split env m with ⟨t, _, heq⟩ | heq
    · left; rw [heq]
    · right; rw [heq]
      exact (team_data_miss_path_spec env _).1

/-- C7 counterexample: an empty stored dict queried against the unknown
category "bogus" yields a normal `False` (treated as a plain miss) — no
configuration error surfaces, because the field pre-check returns before
`CACHE_CONFIG` is consulted. -/
theorem unknown_category_no_error_cex :
    is_data_valid (⟨none, none, none⟩ : StoredDict Payload) "bogus" 0
      = .ok false := by
  decide

/-- C7 (amended): an unknown category raises the configuration lookup
error (`KeyError`) only when the candidate dict carries both timestamp and
version fields; when either field is missing the check returns `False`
with no error regardless of the category; an unknown collection name makes
`query_collection` raise `ValueError` to its caller. -/
theorem unknown_category_error_behavior :
    (∀ (d : StoredDict Payload) (ts : ℚ) (v : String) (cat : String) (now : ℚ),
        cat ∉ cacheCategories → d.timestamp = some ts → d.version = some v →
        is_data_valid d cat now = .error (.keyError cat))
    ∧ (∀ (d : StoredDict Payload) (cat : String) (now : ℚ),
        d.timestamp = none ∨ d.version = none →
        is_data_valid d cat now = .ok false)
    ∧ (∀ (u : String → String → Nat → Except Unit QueryResultSet)
        (name q : String) (n : Nat), name ∉ collection_names →
        query_collection u name q n
          = .error (.valueError ("Collection " ++ name ++ " does not exist"))) := by
  refine ⟨?_, ?_, ?_⟩
  · intro d ts v cat now hcat hts hv
    have hcfg : CACHE_CONFIG cat = none := by
      simp only [cacheCategories, List.mem_cons, List.not_mem_nil, or_false,
        not_or] at hcat
      obtain ⟨h1, h2, h3, h4⟩ := hcat
      simp [CACHE_CONFIG, h1, h2, h3, h4]
    simp [is_data_valid, hts, hv, hcfg]
  · intro d cat now h
    rcases h with h | h
    · simp [is_data_valid, h]
    · rcases hdt : d.timestamp with _ | ts <;> simp [is_data_valid, hdt, h]
  · intro u name q n h
    unfold query_collection
    rw [if_neg h]

/-- C7 amended witness: a well-formed dict under the unknown category
"bogus" raises `KeyError`, and querying an unknown collection raises
`ValueError`. -/
theorem unknown_category_error_behavior_witness :
    is_data_valid (⟨some ⟨1, true, []⟩, some "1.0", some 0⟩ : StoredDict Payload)
      "bogus" 0 = .error (.keyError "bogus")
    ∧ query_collection (fun _ _ _ => .ok emptyQueryResult) "bogus" "q" 1
        = .error (.valueError ("Collection " ++ "bogus" ++ " does not exist")) :=
  ⟨unknown_category_error_behavior.1 _ 0 "1.0" "bogus" 0 (by decide) rfl rfl,
   unknown_category_error_behavior.2.2 _ "bogus" "q" 1 (by decide)⟩

end SoccerAnalyst
